import Mathlib

/-!
Verification of the LoRa gas-sensor firmware (src/arduino/lora_gaz.ino).

The firmware is embedded shallowly as pure Lean functions that produce a
trace of observable events.  The environment supplies the values that the
hardware would produce: raw ADC codes for the two analog reads and the
status code returned by the radio collaborator for each transmission.

C integer semantics used by the embedding (the target is an ATmega328,
where `int` is a 16-bit two's-complement integer and `char` is signed
8-bit):
* `>>` on a signed int is an arithmetic shift, i.e. floor division by a
  power of two (`Int.fdiv`);
* `& 0xFF` on a two's-complement value yields its low byte, a value in
  [0, 256), i.e. the Euclidean remainder mod 256;
* narrowing `int → char` keeps the low 8 bits, reinterpreted as a signed
  byte in [-128, 128);
* a `char` put on the wire is read back as its unsigned bit pattern,
  a byte in [0, 256).
-/

/-! ### Pin and timing constants (the `#define`s and literals of the sketch) -/

def gas_sensor_pin : Nat := 0
def temp_sensor_pin : Nat := 1
def DEFAULT_PORT : Int := 1
def TX_PIN : Nat := 2
def RX_PIN : Nat := 3
def RST_PIN : Nat := 4
def HEAT_PIN : Nat := 5

/-- Heating duration in seconds: the literal `5` in `heat(5)` in `loop()`. -/
def HEAT_DURATION : Int := 5

/-- Sleep duration per cycle in seconds: the literal `120` in `goToSleep(120)`. -/
def SLEEP_DURATION : Int := 120

/-- Watchdog tick period in seconds (`WDTCSR = 1<<WDP0 | 1<<WDP3`, 8.0 s). -/
def TICK_PERIOD : Int := 8

/-- Startup timeout in milliseconds: `MsTimer2::set(15000, timeoutHandler)`. -/
def STARTUP_TIMEOUT_MS : Nat := 15000

/-! ### C integer operations -/

/-- `v >> n` on a signed C int: arithmetic shift right, floor division by `2^n`. -/
def cShr (v : Int) (n : Nat) : Int := Int.fdiv v (2 ^ n)

/-- `v & 0xFF` on a two's-complement C int: the low byte, in [0, 256). -/
def cAndFF (v : Int) : Int := v % 256

/-- Narrowing conversion `int → char` (signed 8-bit): wrap into [-128, 128). -/
def cChar (v : Int) : Int := (v + 128) % 256 - 128

/-- The unsigned bit pattern of a `char` as transmitted on the wire. -/
def byteOfChar (c : Int) : Nat := (c % 256).toNat

/-! ### Observable events -/

/-- Analog reference selection: `INTERNAL` is the 1.1 V high-precision
reference, `DEFAULT` the wide 5 V reference. -/
inductive ARef where
  | internal : ARef
  | default : ARef
deriving DecidableEq

/-- The 1.1 V reference is the highest-precision, small-voltage-range one. -/
def highestPrecisionRef : ARef := ARef.internal

/-- One observable step of the firmware.  `sleep8` is one pass through
`sleep_8s()`: the MCU powers down and wakes on the next watchdog interrupt,
so one `sleep8` event consumes exactly one watchdog tick (one increment of
`wdt_cpt` by the ISR). -/
inductive Ev where
  | delayMs : Int → Ev
  | pinModeOut : Nat → Ev
  | pinWrite : Nat → Bool → Ev
  | serialBegin : Nat → Ev
  | printStr : String → Ev
  | printInt : Int → Ev
  | analogRef : ARef → Ev
  | analogSample : Nat → Int → Ev
  | timerSet : Nat → Ev
  | timerStart : Ev
  | timerStop : Ev
  | showStatus : Ev
  | personalize : Ev
  | sendBytes : List Nat → Int → Int → Int → Ev
  | watchdogArm : Ev
  | sleep8 : Ev
deriving DecidableEq

/-! ### LoRa functions -/

/-- `resetRN2483()`: pulse the reset line of the radio module. -/
def resetRN2483 : List Ev :=
  [Ev.pinModeOut RST_PIN, Ev.pinWrite RST_PIN false, Ev.delayMs 100,
   Ev.pinWrite RST_PIN true, Ev.delayMs 100]

/-- `loraInit()`: reset the module, open its serial link, and query its
status with the software timeout guard armed around the query. -/
def loraInit : List Ev :=
  resetRN2483 ++ [Ev.serialBegin 57600, Ev.timerStart, Ev.showStatus, Ev.timerStop]

/-- `loraJoin()`: `ttn.personalize(devAddr, nwkSKey, appSKey)`. -/
def loraJoin : List Ev := [Ev.personalize]

/-- `loraSendBytes(data, length, port)`: forward the buffer to
`ttn.sendBytes` and return its status unchanged.  The collaborator's status
is an environment input `status`. -/
def loraSendBytes (data : List Nat) (length port : Int) (status : Int) :
    List Ev × Int :=
  ([Ev.sendBytes data length port status], status)

/-- The `char data[4]` array built in `loraSendValues` (line 122):
`{gas >> 8, gas & 0xFF, temp >> 8, temp & 0xFF}`, each initializer narrowed
to `char`. -/
def payloadChars (gas temp : Int) : List Int :=
  [cChar (cShr gas 8), cChar (cAndFF gas), cChar (cShr temp 8), cChar (cAndFF temp)]

/-- The wire bytes of a `char` buffer. -/
def wireBytes (chars : List Int) : List Nat := chars.map byteOfChar

/-- `loraSendValues(gas, temp, port)`: build `char data[4]` and call
`ttn.sendBytes(data, 4, port)`, returning the collaborator's status. -/
def loraSendValues (gas temp port : Int) (status : Int) : List Ev × Int :=
  ([Ev.sendBytes (wireBytes (payloadChars gas temp)) 4 port status], status)

/-! ### Timer / sleep functions -/

/-- `timeoutHandler()` operates on this state: the diagnostic log, whether
the MsTimer2 guard is running, whether the process was reset or killed, and
the shared watchdog tick counter. -/
structure MainState where
  log : List String
  timerRunning : Bool
  processResetOrKilled : Bool
  wdt_cpt : Int
deriving DecidableEq

/-- `timeoutHandler()`: print the timeout notice and stop the MsTimer2
guard; nothing else. -/
def timeoutHandler (s : MainState) : MainState :=
  { s with log := s.log ++ ["Timeout !\n"], timerRunning := false }

/-- The `while (wdt_cpt < sec)` loop of `goToSleep`, starting from counter
value `cpt`.  Each iteration prints a progress marker, powers down in
`sleep_8s()` and returns on the watchdog interrupt, which increments the
counter by one. -/
def sleepLoopTrace (cpt ticks : Int) : List Ev :=
  if _h : cpt < ticks then
    [Ev.printStr "* ", Ev.delayMs 100, Ev.sleep8, Ev.delayMs 100]
      ++ sleepLoopTrace (cpt + 1) ticks
  else []
termination_by (ticks - cpt).toNat
decreasing_by omega

/-- `n` iterations of the sleep loop body (structural helper used to
compute with `sleepLoopTrace`). -/
def sleepBlocks : Nat → List Ev
  | 0 => []
  | n + 1 =>
    [Ev.printStr "* ", Ev.delayMs 100, Ev.sleep8, Ev.delayMs 100] ++ sleepBlocks n

/-- `goToSleep(sec)` (lines 172-187): `sec = sec >> 3`; `wdt_cpt = 0`;
print the real period `8*sec`; run the sleep loop; `wdt_cpt = 0` again.
`wdtIn` is the value of `wdt_cpt` on entry (it is overwritten by the
reset); the second component is the value of `wdt_cpt` on return. -/
def goToSleep (sec : Int) (_wdtIn : Int) : List Ev × Int :=
  let secTicks := cShr sec 3
  let cptAtLoopEntry : Int := 0
  let real_period := 8 * secTicks
  ([Ev.printStr "Sleep (", Ev.printInt real_period, Ev.printStr "s) "]
     ++ sleepLoopTrace cptAtLoopEntry secTicks
     ++ [Ev.printStr "Wake up !\n"], 0)

/-! ### Sensor / actuator functions -/

/-- `getGasValue()`: select the 1.1 V internal reference, take one sample
of the gas pin (raw code `v` supplied by the environment), print it, and
return it unchanged. -/
def getGasValue (v : Int) : List Ev × Int :=
  ([Ev.analogRef ARef.internal, Ev.analogSample gas_sensor_pin v,
    Ev.printStr "Gas value = ", Ev.printInt v, Ev.printStr "/1023\n"], v)

/-- `getTempValue()`: select the default 5 V reference, take one sample of
the temperature pin, print it, and return it unchanged. -/
def getTempValue (v : Int) : List Ev × Int :=
  ([Ev.analogRef ARef.default, Ev.analogSample temp_sensor_pin v,
    Ev.printStr "Temperature value = ", Ev.printInt v, Ev.printStr "/1023\n"], v)

/-- `heat(sec)`: drive the heater pin high, block `1000*sec` ms, drive it
low. -/
def heat (sec : Int) : List Ev :=
  [Ev.pinWrite HEAT_PIN true, Ev.delayMs (1000 * sec), Ev.pinWrite HEAT_PIN false]

/-! ### setup() and loop() -/

/-- `setup()` (lines 230-238): debug serial, heater pin direction, MsTimer2
timeout registration, watchdog arming, radio bring-up, network join. -/
def setup : List Ev :=
  [Ev.serialBegin 9600, Ev.pinModeOut HEAT_PIN, Ev.timerSet STARTUP_TIMEOUT_MS,
   Ev.watchdogArm]
    ++ loraInit ++ loraJoin

/-- One pass of `loop()` (lines 240-245): `delay(100)`, `heat(5)`,
`loraSendValues(getGasValue(), getTempValue(), 1)`, `goToSleep(120)`.
`g` and `t` are the raw ADC codes the two reads return this cycle,
`status` is the collaborator's status for this cycle's transmission, and
`c` is the value of `wdt_cpt` on entry.  The second component is `wdt_cpt`
on exit.

Caveat: the two reads are the argument expressions of the call
`loraSendValues(getGasValue(), getTempValue(), 1)` on line 243, and the
language leaves the evaluation order of function-call arguments
unspecified.  This definition fixes the left-to-right (gas-first) order;
`loopOrd` below models both allowed orders, and `loop` is its gas-first
instance. -/
def loop (g t status c : Int) : List Ev × Int :=
  let gas := getGasValue g
  let temp := getTempValue t
  let send := loraSendValues gas.2 temp.2 1 status
  let slp := goToSleep 120 c
  ([Ev.delayMs 100] ++ heat HEAT_DURATION ++ gas.1 ++ temp.1 ++ send.1 ++ slp.1,
   slp.2)

/-- The trace of the `n`-th pass of `loop()` under environment `env`,
where `env n = (gas code, temperature code, send status)` for cycle `n`.
`wdt_cpt` is 0 on entry to every cycle (it is 0 initially and 0 after each
`goToSleep`). -/
def runCycle (env : Nat → Int × Int × Int) (n : Nat) : List Ev :=
  (loop (env n).1 (env n).2.1 (env n).2.2 0).1

/-- The evaluation order the compiler picks for the two argument
expressions of `loraSendValues(getGasValue(), getTempValue(), 1)` on
line 243.  The language does not specify it, so both orders are
legitimate behaviors of the source. -/
inductive ArgOrder where
  | gasFirst : ArgOrder
  | tempFirst : ArgOrder
deriving DecidableEq

/-- Evaluating the two argument expressions of line 243 in the order
`ord`: the emitted trace, followed by the value of `getGasValue()` and
the value of `getTempValue()`.  The order affects only the trace; each
read happens exactly once and its value flows to the same parameter
position either way. -/
def evalArgs : ArgOrder → Int → Int → List Ev × Int × Int
  | ArgOrder.gasFirst, g, t =>
      ((getGasValue g).1 ++ (getTempValue t).1, (getGasValue g).2, (getTempValue t).2)
  | ArgOrder.tempFirst, g, t =>
      ((getTempValue t).1 ++ (getGasValue g).1, (getGasValue g).2, (getTempValue t).2)

/-- One pass of `loop()` with the argument-evaluation order made
explicit: `delay(100)`, `heat(5)`, the two reads in the order `ord`, the
transmission of (gas, temp) on port 1, then `goToSleep(120)`. -/
def loopOrd (ord : ArgOrder) (g t status c : Int) : List Ev × Int :=
  let args := evalArgs ord g t
  let send := loraSendValues args.2.1 args.2.2 1 status
  let slp := goToSleep 120 c
  ([Ev.delayMs 100] ++ heat HEAT_DURATION ++ args.1 ++ send.1 ++ slp.1, slp.2)

/-- The trace of the `n`-th pass of `loop()` under environment `env`,
with the argument-evaluation order `ord` made explicit. -/
def runCycleOrd (ord : ArgOrder) (env : Nat → Int × Int × Int) (n : Nat) :
    List Ev :=
  (loopOrd ord (env n).1 (env n).2.1 (env n).2.2 0).1

/-! ### Helper predicates and bridge lemmas -/

/-- Recognizes one watchdog-tick power-down event. -/
def isSleepTick : Ev → Bool
  | Ev.sleep8 => true
  | _ => false

/-- Recognizes a transmission to the radio collaborator. -/
def isSend : Ev → Bool
  | Ev.sendBytes _ _ _ _ => true
  | _ => false

theorem sleepLoopTrace_eq_blocks :
    ∀ (n : Nat) (cpt ticks : Int), (ticks - cpt).toNat = n →
      sleepLoopTrace cpt ticks = sleepBlocks n := by
  intro n
  induction n with
  | zero =>
    intro cpt ticks hn
    rw [sleepLoopTrace]
    have hge : ¬ cpt < ticks := by omega
    simp [hge, sleepBlocks]
  | succ m ih =>
    intro cpt ticks hn
    rw [sleepLoopTrace]
    have hlt : cpt < ticks := by omega
    rw [dif_pos hlt, ih (cpt + 1) ticks (by omega)]
    rfl

theorem sleepBlocks_countP (n : Nat) :
    (sleepBlocks n).countP isSleepTick = n := by
  induction n with
  | zero => rfl
  | succ m ih =>
    simp [sleepBlocks, List.countP_append, List.countP_cons, isSleepTick, ih]

/-! ### Claims about goToSleep -/

/-- C2: for every duration D that is a non-negative multiple of the tick
period 8, `goToSleep(D)` resets `wdt_cpt` to zero before entering the halt
loop (its behavior does not depend on the incoming counter value), runs
exactly D/8 sleep iterations, consuming exactly D/8 watchdog ticks, and
returns with the counter reset to zero; in particular `goToSleep(120)`
runs 15 iterations. -/
theorem goToSleep_multiple_exact (D c : Int) (h0 : 0 ≤ D) (h8 : D % 8 = 0) :
    goToSleep D c = goToSleep D 0
    ∧ (goToSleep D c).2 = 0
    ∧ (goToSleep D c).1.countP isSleepTick = (D / 8).toNat := by
  refine ⟨rfl, rfl, ?_⟩
  have hshr : cShr D 3 = D / 8 := by
    unfold cShr
    rw [Int.fdiv_eq_ediv _ (by norm_num)]
    norm_num
  simp only [goToSleep, hshr, List.countP_append, List.countP_cons,
    sleepLoopTrace_eq_blocks ((D / 8 - 0).toNat) 0 (D / 8) rfl,
    sleepBlocks_countP]
  simp [isSleepTick]

/-- C2 witness: `goToSleep(120)` (entered with a stale counter value 3)
runs exactly 15 sleep iterations and exits with the counter at zero. -/
theorem goToSleep_multiple_exact_witness :
    (goToSleep 120 3).1.countP isSleepTick = 15 ∧ (goToSleep 120 3).2 = 0 := by
  obtain ⟨h1, h2, h3⟩ := goToSleep_multiple_exact 120 3 (by decide) (by decide)
  refine ⟨?_, h2⟩
  rw [h3]
  decide

/-- C5: for every non-negative duration D that is not a multiple of the
tick period 8, `goToSleep(D)` silently drops the remainder: it behaves
identically to `goToSleep(8 * (D / 8))` and waits exactly floor(D/8)
ticks, with no error reported (the traces coincide, so no extra
diagnostic is emitted either). -/
theorem goToSleep_floor_remainder (D c : Int) (h0 : 0 ≤ D) (hnm : D % 8 ≠ 0) :
    goToSleep D c = goToSleep (8 * (D / 8)) c
    ∧ (goToSleep D c).1.countP isSleepTick = (D / 8).toNat := by
  have h8 : ((2 : Int) ^ 3) = 8 := by norm_num
  have hshr : ∀ v : Int, cShr v 3 = v / 8 := by
    intro v
    unfold cShr
    rw [Int.fdiv_eq_ediv _ (by norm_num), h8]
  have hsame : cShr (8 * (D / 8)) 3 = cShr D 3 := by
    rw [hshr, hshr]
    omega
  constructor
  · unfold goToSleep
    rw [hsame]
  · simp only [goToSleep, hshr, List.countP_append, List.countP_cons,
      sleepLoopTrace_eq_blocks ((D / 8 - 0).toNat) 0 (D / 8) rfl,
      sleepBlocks_countP]
    simp [isSleepTick]

/-- C5 witness: `goToSleep(12)` behaves exactly like `goToSleep(8)` and
waits a single tick. -/
theorem goToSleep_floor_remainder_witness :
    goToSleep 12 0 = goToSleep (8 * ((12 : Int) / 8)) 0
    ∧ (goToSleep 12 0).1.countP isSleepTick = ((12 : Int) / 8).toNat :=
  goToSleep_floor_remainder 12 0 (by decide) (by decide)

/-! ### Claims about payload packing -/

/-- C1: for all 10-bit sensor values g, t in [0, 1023], the payload
transmitted by `loraSendValues(g, t, port)` is exactly 4 bytes equal to
(g>>8, g&0xFF, t>>8, t&0xFF): the big-endian 16-bit gas value followed by
the big-endian 16-bit temperature value (for a value in this range,
`>> 8` is division by 256 and `& 0xFF` is the remainder mod 256). -/
theorem loraSendValues_payload_bigendian (g t port status : Int)
    (hg0 : 0 ≤ g) (hg1 : g ≤ 1023) (ht0 : 0 ≤ t) (ht1 : t ≤ 1023) :
    (loraSendValues g t port status).1 =
      [Ev.sendBytes
        [(g / 256).toNat, (g % 256).toNat, (t / 256).toNat, (t % 256).toNat]
        4 port status] := by
  have hb : wireBytes (payloadChars g t) =
      [(g / 256).toNat, (g % 256).toNat, (t / 256).toNat, (t % 256).toNat] := by
    simp only [wireBytes, payloadChars, byteOfChar, cChar, cAndFF, cShr,
      List.map_cons, List.map_nil,
      Int.fdiv_eq_ediv _ (by norm_num : (0 : Int) ≤ 2 ^ 8)]
    norm_num
    omega
  simp [loraSendValues, hb]

/-- C1 witness: gas = 300 (0x012C) and temp = 900 (0x0384) give the
payload bytes [0x01, 0x2C, 0x03, 0x84] = [1, 44, 3, 132]. -/
theorem loraSendValues_payload_bigendian_witness :
    (loraSendValues 300 900 1 0).1 = [Ev.sendBytes [1, 44, 3, 132] 4 1 0] := by
  have h := loraSendValues_payload_bigendian 300 900 1 0
    (by decide) (by decide) (by decide) (by decide)
  rw [h]
  decide

/-- C10: for every pair of 16-bit int inputs (g, t), including values
outside [0, 1023], `loraSendValues` transmits bytes determined only by the
low 16 bits of each input: the transmitted trace is the same as for the
inputs reduced mod 2^16, each payload byte equals the corresponding byte of
the value reduced mod 2^16 (itself taken mod 256 by the char narrowing),
and the status is returned unchanged, so out-of-range inputs are silently
truncated with no error path. -/
theorem loraSendValues_low16_truncation (g t port status : Int)
    (hg0 : -32768 ≤ g) (hg1 : g ≤ 32767)
    (ht0 : -32768 ≤ t) (ht1 : t ≤ 32767) :
    (loraSendValues g t port status).1 =
      [Ev.sendBytes
        [(g % 65536).toNat / 256 % 256, (g % 65536).toNat % 256,
         (t % 65536).toNat / 256 % 256, (t % 65536).toNat % 256]
        4 port status]
    ∧ loraSendValues g t port status
        = loraSendValues (g % 65536) (t % 65536) port status
    ∧ (loraSendValues g t port status).2 = status := by
  have hb : wireBytes (payloadChars g t) =
      [(g % 65536).toNat / 256 % 256, (g % 65536).toNat % 256,
       (t % 65536).toNat / 256 % 256, (t % 65536).toNat % 256] := by
    simp only [wireBytes, payloadChars, byteOfChar, cChar, cAndFF, cShr,
      List.map_cons, List.map_nil,
      Int.fdiv_eq_ediv _ (by norm_num : (0 : Int) ≤ 2 ^ 8)]
    norm_num
    omega
  have hlow : wireBytes (payloadChars g t) =
      wireBytes (payloadChars (g % 65536) (t % 65536)) := by
    simp only [wireBytes, payloadChars, byteOfChar, cChar, cAndFF, cShr,
      List.map_cons, List.map_nil,
      Int.fdiv_eq_ediv _ (by norm_num : (0 : Int) ≤ 2 ^ 8)]
    norm_num
    omega
  refine ⟨by simp [loraSendValues, hb], by simp [loraSendValues, hlow], rfl⟩

/-- C10 witness: g = -1 and t = -32768 are truncated to 0xFFFF and 0x8000,
giving wire bytes [255, 255, 128, 0], with the status passed through. -/
theorem loraSendValues_low16_truncation_witness :
    (loraSendValues (-1) (-32768) 1 (-1)).1 =
      [Ev.sendBytes [255, 255, 128, 0] 4 1 (-1)]
    ∧ (loraSendValues (-1) (-32768) 1 (-1)).2 = -1 := by
  obtain ⟨h1, h2, h3⟩ := loraSendValues_low16_truncation (-1) (-32768) 1 (-1)
    (by decide) (by decide) (by decide) (by decide)
  refine ⟨?_, h3⟩
  rw [h1]
  decide

/-- The payload packing of spec section 3: each reading is truncated to
16 bits; the payload is the big-endian high/low byte pair of the gas
reading (high byte = value >> 8, low byte = value & 0xFF) followed by the
big-endian pair of the temperature reading. -/
def payloadPacking_spec (gas temp : Int) : List Nat :=
  let g16 := (gas % 65536).toNat
  let t16 := (temp % 65536).toNat
  [g16 / 256, g16 % 256, t16 / 256, t16 % 256]

/-- `sendValues` as the spec section 4.6 describes it: the composition of
payload packing with `sendBytes` (4 bytes, given port). -/
def sendValues_spec (gas temp port status : Int) : List Ev × Int :=
  loraSendBytes (payloadPacking_spec gas temp) 4 port status

/-- C7: for all gas, temp and port, `loraSendValues(gas, temp, port)` is
exactly the composition of payload packing with the `sendBytes` operation:
it emits the same collaborator call (same 4 packed bytes, length 4, same
port) as `loraSendBytes` on the packed payload, and returns that call's
status code unchanged. -/
theorem loraSendValues_refines_pack_send (gas temp port status : Int) :
    loraSendValues gas temp port status = sendValues_spec gas temp port status := by
  have hb : wireBytes (payloadChars gas temp) = payloadPacking_spec gas temp := by
    simp only [wireBytes, payloadChars, payloadPacking_spec, byteOfChar, cChar,
      cAndFF, cShr, List.map_cons, List.map_nil,
      Int.fdiv_eq_ediv _ (by norm_num : (0 : Int) ≤ 2 ^ 8)]
    norm_num
    omega
  simp [loraSendValues, sendValues_spec, loraSendBytes, hb]

/-! ### Claims about sensors and the timeout handler -/

/-- Recognizes a raw analog sample event. -/
def isSample : Ev → Bool
  | Ev.analogSample _ _ => true
  | _ => false

/-- C9: the gas-sensor read selects the highest-precision
small-voltage-range reference (`INTERNAL`, 1.1 V) before sampling, the
temperature read selects the default wide-range reference before sampling,
and each operation takes exactly one raw analog sample and returns it as
the committed integer value with no filtering, averaging or calibration. -/
theorem sensors_single_raw_sample (g t : Int) :
    (getGasValue g).2 = g
    ∧ (getTempValue t).2 = t
    ∧ (getGasValue g).1.countP isSample = 1
    ∧ (getTempValue t).1.countP isSample = 1
    ∧ (getGasValue g).1 =
        [Ev.analogRef highestPrecisionRef, Ev.analogSample gas_sensor_pin g,
         Ev.printStr "Gas value = ", Ev.printInt g, Ev.printStr "/1023\n"]
    ∧ (getTempValue t).1 =
        [Ev.analogRef ARef.default, Ev.analogSample temp_sensor_pin t,
         Ev.printStr "Temperature value = ", Ev.printInt t,
         Ev.printStr "/1023\n"] := by
  refine ⟨rfl, rfl, ?_, ?_, rfl, rfl⟩ <;>
    simp [getGasValue, getTempValue, List.countP_cons, isSample]

/-- C8: if the software timeout guard fires before being disarmed, its
handler appends the timeout notice to the log and stops the guard itself,
and nothing else: the process is not reset or killed, the rest of the
state is untouched, and the guard is indeed armed around the radio status
query during bring-up (`timerStart`, `showStatus`, `timerStop` appear
consecutively in `loraInit`). -/
theorem timeoutHandler_advisory (s : MainState) :
    (timeoutHandler s).timerRunning = false
    ∧ (timeoutHandler s).log = s.log ++ ["Timeout !\n"]
    ∧ (timeoutHandler s).processResetOrKilled = s.processResetOrKilled
    ∧ (timeoutHandler s).wdt_cpt = s.wdt_cpt
    ∧ [Ev.timerStart, Ev.showStatus, Ev.timerStop].IsInfix loraInit := by
  refine ⟨rfl, rfl, rfl, rfl, ?_⟩
  exact ⟨resetRN2483 ++ [Ev.serialBegin 57600], [], by simp [loraInit]⟩

/-! ### Claims about the duty cycle -/

/-- The payload of a transmission event, if any. -/
def payloadOf : Ev → Option (List Nat)
  | Ev.sendBytes data _ _ _ => some data
  | _ => none

/-- The payloads of all transmissions in a trace, in order. -/
def sentPayloads (l : List Ev) : List (List Nat) := l.filterMap payloadOf

theorem sleepBlocks_no_send (n : Nat) : sentPayloads (sleepBlocks n) = [] := by
  induction n with
  | zero => rfl
  | succ m ih => simp [sleepBlocks, sentPayloads, List.filterMap_append,
      List.filterMap_cons, payloadOf] at *; exact ih

/-- The sleep loop of `goToSleep(120)` runs 15 blocks. -/
theorem sleepLoop120 : sleepLoopTrace 0 (cShr 120 3) = sleepBlocks 15 :=
  sleepLoopTrace_eq_blocks 15 0 (cShr 120 3) (by decide)

/-- C3: the scheduler's transition from Transmitting to Sleeping is
unconditional.  For every status code the transmission returns, the loop
body ends with the full `goToSleep(120)` trace, and for two environments
that agree on the sensor readings but return arbitrarily different
transmission statuses, every cycle transmits identical payloads: a
transmission failure does not alter the payload of the next cycle. -/
theorem loop_sleep_unconditional (env env' : Nat → Int × Int × Int)
    (hreads : ∀ n, (env n).1 = (env' n).1 ∧ (env n).2.1 = (env' n).2.1) :
    ∀ n, (goToSleep 120 0).1 <:+ runCycle env n
      ∧ sentPayloads (runCycle env n) = sentPayloads (runCycle env' n) := by
  intro n
  constructor
  · show ∃ l, l ++ (goToSleep 120 0).1 = runCycle env n
    exact ⟨[Ev.delayMs 100] ++ heat HEAT_DURATION ++ (getGasValue (env n).1).1
      ++ (getTempValue (env n).2.1).1
      ++ (loraSendValues (env n).1 (env n).2.1 1 (env n).2.2).1, rfl⟩
  · obtain ⟨h1, h2⟩ := hreads n
    simp [runCycle, loop, sentPayloads, getGasValue, getTempValue,
      loraSendValues, heat, goToSleep, sleepLoop120, List.filterMap_append,
      List.filterMap_cons, payloadOf, sleepBlocks_no_send, h1, h2]

/-- C3 witness: with readings gas = 300, temp = 900 fixed, a successful
transmission (status 0) and a failed one (status -1) both lead into the
full sleep trace and transmit the same payloads. -/
theorem loop_sleep_unconditional_witness :
    (goToSleep 120 0).1 <:+ runCycle (fun _ => (300, 900, 0)) 0
    ∧ sentPayloads (runCycle (fun _ => (300, 900, 0)) 0)
        = sentPayloads (runCycle (fun _ => (300, 900, -1)) 0) :=
  loop_sleep_unconditional (fun _ => (300, 900, 0)) (fun _ => (300, 900, -1))
    (fun _ => ⟨rfl, rfl⟩) 0

/-- The externally meaningful phases of a duty cycle. -/
inductive Phase where
  | heatOn : Phase
  | heatOff : Phase
  | sampleGas : Phase
  | sampleTemp : Phase
  | transmit : Int → Phase
  | sleepTick : Phase
deriving DecidableEq

/-- Maps an event to the duty-cycle phase it marks, if any. -/
def phaseOf : Ev → Option Phase
  | Ev.pinWrite p b =>
      if p = HEAT_PIN then some (if b then Phase.heatOn else Phase.heatOff)
      else none
  | Ev.analogSample p _ =>
      if p = gas_sensor_pin then some Phase.sampleGas
      else if p = temp_sensor_pin then some Phase.sampleTemp
      else none
  | Ev.sendBytes _ _ port _ => some (Phase.transmit port)
  | Ev.sleep8 => some Phase.sleepTick
  | _ => none

theorem sleepBlocks_phases (n : Nat) :
    (sleepBlocks n).filterMap phaseOf = List.replicate n Phase.sleepTick := by
  induction n with
  | zero => rfl
  | succ m ih =>
    simp [sleepBlocks, List.filterMap_append, List.filterMap_cons, phaseOf,
      ih, List.replicate_succ]

/-- The number of events in one pass of `loop()`. -/
def cycleLen : Nat := 79

theorem sleepBlocks_length (n : Nat) : (sleepBlocks n).length = 4 * n := by
  induction n with
  | zero => rfl
  | succ m ih => simp [sleepBlocks, ih]; omega

theorem loop_length (g t status c : Int) : (loop g t status c).1.length = cycleLen := by
  simp [loop, heat, getGasValue, getTempValue, loraSendValues, goToSleep,
    sleepLoop120, List.length_append, sleepBlocks_length, cycleLen]

/-- The two sampling phases in the order produced by the argument
evaluation order `ord`. -/
def samplePhases : ArgOrder → List Phase
  | ArgOrder.gasFirst => [Phase.sampleGas, Phase.sampleTemp]
  | ArgOrder.tempFirst => [Phase.sampleTemp, Phase.sampleGas]

/-- C4 counterexample: the claim says every iteration samples the gas
sensor and then the temperature sensor, but the evaluation order of the
two argument expressions on line 243 is unspecified; under the
temperature-first order (a legitimate behavior of the source) the first
cycle of a concrete run does not produce the gas-then-temperature phase
sequence the claim asserts. -/
theorem cycle_order_counterexample :
    (runCycleOrd ArgOrder.tempFirst (fun _ => (300, 900, 0)) 0).filterMap phaseOf
      ≠ [Phase.heatOn, Phase.heatOff, Phase.sampleGas, Phase.sampleTemp,
         Phase.transmit DEFAULT_PORT] ++ List.replicate 15 Phase.sleepTick := by
  have h : (runCycleOrd ArgOrder.tempFirst (fun _ => (300, 900, 0)) 0).filterMap
      phaseOf =
      [Phase.heatOn, Phase.heatOff, Phase.sampleTemp, Phase.sampleGas,
       Phase.transmit DEFAULT_PORT] ++ List.replicate 15 Phase.sleepTick := by
    simp [runCycleOrd, loopOrd, evalArgs, heat, getGasValue, getTempValue,
      loraSendValues, goToSleep, sleepLoop120, List.filterMap_append,
      List.filterMap_cons, phaseOf, sleepBlocks_phases, HEAT_PIN,
      gas_sensor_pin, temp_sensor_pin, DEFAULT_PORT]
  rw [h]
  decide

/-- C4 (amended): every iteration of the repeating duty cycle performs,
in order: heating (heater on, then off 5 seconds later), sampling the gas
sensor and the temperature sensor — each exactly once, in whichever of
the two argument-evaluation orders the compiler picked — transmitting on
logical port 1 (= `DEFAULT_PORT`), then sleeping for 120 seconds
(15 watchdog ticks); the gas-first instance is exactly the `runCycle`
model used elsewhere; the cycle is defined for every n (the loop repeats
forever, each pass producing the same fixed number of events), and the
timing constants are the build-time values 5 s heat, 120 s sleep, 8 s
tick, 15 s startup timeout. -/
theorem cycle_order_and_constants_amended (ord : ArgOrder)
    (env : Nat → Int × Int × Int) (n : Nat) :
    (runCycleOrd ord env n).filterMap phaseOf =
      [Phase.heatOn, Phase.heatOff] ++ samplePhases ord
        ++ [Phase.transmit DEFAULT_PORT] ++ List.replicate 15 Phase.sleepTick
    ∧ runCycleOrd ArgOrder.gasFirst env n = runCycle env n
    ∧ heat HEAT_DURATION =
        [Ev.pinWrite HEAT_PIN true, Ev.delayMs (1000 * HEAT_DURATION),
         Ev.pinWrite HEAT_PIN false]
    ∧ HEAT_DURATION = 5 ∧ SLEEP_DURATION = 120 ∧ TICK_PERIOD = 8
    ∧ STARTUP_TIMEOUT_MS = 15000
    ∧ SLEEP_DURATION / TICK_PERIOD = 15
    ∧ (runCycleOrd ord env n).length = cycleLen := by
  refine ⟨?_, ?_, rfl, rfl, rfl, rfl, rfl, by decide, ?_⟩
  · cases ord <;>
      simp [runCycleOrd, loopOrd, evalArgs, samplePhases, heat, getGasValue,
        getTempValue, loraSendValues, goToSleep, sleepLoop120,
        List.filterMap_append, List.filterMap_cons, phaseOf,
        sleepBlocks_phases, HEAT_PIN, gas_sensor_pin, temp_sensor_pin,
        DEFAULT_PORT]
  · simp [runCycleOrd, runCycle, loopOrd, loop, evalArgs, List.append_assoc]
  · cases ord <;>
      simp [runCycleOrd, loopOrd, evalArgs, heat, getGasValue, getTempValue,
        loraSendValues, goToSleep, sleepLoop120, List.length_append,
        sleepBlocks_length, cycleLen]

/-! ### The whole-program trace: setup once, then the cycle forever -/

/-- Events that only the one-time startup sequence may emit: serial and
timer configuration, pin-direction setup, watchdog arming, radio bring-up
and the network join. -/
def isStartupEv : Ev → Bool
  | Ev.serialBegin _ => true
  | Ev.pinModeOut _ => true
  | Ev.timerSet _ => true
  | Ev.watchdogArm => true
  | Ev.timerStart => true
  | Ev.timerStop => true
  | Ev.showStatus => true
  | Ev.personalize => true
  | _ => false

/-- The `k`-th event the firmware emits: the 14 setup events first, then
the cycles of `loop()` one after the other, forever. -/
def traceAt (env : Nat → Int × Int × Int) (k : Nat) : Ev :=
  if k < setup.length then setup.getD k (Ev.delayMs 0)
  else (runCycle env ((k - setup.length) / cycleLen)).getD
    ((k - setup.length) % cycleLen) (Ev.delayMs 0)

theorem setup_length : setup.length = 14 := by decide

theorem sleepBlocks_no_startup (n : Nat) :
    (sleepBlocks n).all (fun e => !isStartupEv e) = true := by
  induction n with
  | zero => rfl
  | succ m ih => simp [sleepBlocks, List.all_append, isStartupEv] at *; exact ih

theorem loop_no_startup (g t status c : Int) :
    (loop g t status c).1.all (fun e => !isStartupEv e) = true := by
  simp [loop, heat, getGasValue, getTempValue, loraSendValues, goToSleep,
    sleepLoop120, List.all_append, isStartupEv]
  simpa [isStartupEv] using sleepBlocks_no_startup 15

theorem all_getD : ∀ (l : List Ev) (p : Ev → Bool) (d : Ev) (i : Nat),
    l.all p = true → p d = true → p (l.getD i d) = true := by
  intro l p d
  induction l with
  | nil => intro i _ hd; simpa using hd
  | cons a rest ih =>
    intro i hall hd
    simp only [List.all_cons, Bool.and_eq_true] at hall
    cases i with
    | zero => simpa using hall.1
    | succ j => simpa using ih j hall.2 hd

theorem traceAt_cycle_not_startup (env : Nat → Int × Int × Int) (k : Nat)
    (hk : 14 ≤ k) : isStartupEv (traceAt env k) = false := by
  unfold traceAt
  rw [if_neg (by rw [setup_length]; omega)]
  have h := loop_no_startup (env ((k - setup.length) / cycleLen)).1
    (env ((k - setup.length) / cycleLen)).2.1
    (env ((k - setup.length) / cycleLen)).2.2 0
  have h2 := all_getD _ (fun e => !isStartupEv e) (Ev.delayMs 0)
    ((k - setup.length) % cycleLen) h rfl
  simpa [runCycle] using h2

theorem traceAt_eq_startup_iff (env : Nat → Int × Int × Int) (e : Ev) (i : Nat)
    (hi : i < 14) (he : isStartupEv e = true)
    (hsetup : ∀ k, k < 14 → (setup.getD k (Ev.delayMs 0) = e ↔ k = i)) :
    ∀ k, traceAt env k = e ↔ k = i := by
  intro k
  by_cases hk : k < 14
  · have hset : traceAt env k = setup.getD k (Ev.delayMs 0) := by
      unfold traceAt
      rw [if_pos (by rw [setup_length]; omega)]
    rw [hset]
    exact hsetup k hk
  · push_neg at hk
    constructor
    · intro h
      have hf := traceAt_cycle_not_startup env k hk
      rw [h, he] at hf
      exact Bool.noConfusion hf
    · intro h
      exact absurd hi (by omega)

/-- C6: at process start, exactly once and not as part of the repeating
cycle, the firmware sets the heater pin direction (event index 1), arms
the hardware watchdog (index 3), brings up the radio (status query at
index 11) and joins the network (index 13); no startup event ever occurs
at or past the end of the setup prefix, so none is re-executed inside a
cycle; and every transmission in the whole trace is preceded by the join
handshake. -/
theorem startup_once_join_before_send (env : Nat → Int × Int × Int) :
    (∀ k, traceAt env k = Ev.personalize ↔ k = 13)
    ∧ (∀ k, traceAt env k = Ev.watchdogArm ↔ k = 3)
    ∧ (∀ k, traceAt env k = Ev.pinModeOut HEAT_PIN ↔ k = 1)
    ∧ (∀ k, traceAt env k = Ev.showStatus ↔ k = 11)
    ∧ (∀ k, isStartupEv (traceAt env k) = true → k < setup.length)
    ∧ (∀ k, isSend (traceAt env k) = true →
        ∃ j, j < k ∧ traceAt env j = Ev.personalize) := by
  have hjoin := traceAt_eq_startup_iff env Ev.personalize 13
    (by omega) (by decide) (by decide)
  refine ⟨hjoin,
    traceAt_eq_startup_iff env Ev.watchdogArm 3 (by omega) (by decide) (by decide),
    traceAt_eq_startup_iff env (Ev.pinModeOut HEAT_PIN) 1
      (by omega) (by decide) (by decide),
    traceAt_eq_startup_iff env Ev.showStatus 11 (by omega) (by decide) (by decide),
    ?_, ?_⟩
  · intro k hk
    rw [setup_length]
    by_contra hge
    push_neg at hge
    have hf := traceAt_cycle_not_startup env k hge
    rw [hk] at hf
    exact Bool.noConfusion hf
  · intro k hk
    have hk14 : 14 ≤ k := by
      by_contra h14
      push_neg at h14
      have hnosend : ∀ j, j < 14 → isSend (setup.getD j (Ev.delayMs 0)) = false := by
        decide
      have hset : traceAt env k = setup.getD k (Ev.delayMs 0) := by
        unfold traceAt
        rw [if_pos (by rw [setup_length]; omega)]
      rw [hset, hnosend k h14] at hk
      exact Bool.noConfusion hk
    exact ⟨13, by omega, (hjoin 13).mpr rfl⟩

/-- C6 witness: in the concrete run with readings 300/900 and status 0,
the event at global index 28 is the first cycle's transmission, and the
join indeed occurs at an earlier index. -/
theorem startup_once_join_before_send_witness :
    isSend (traceAt (fun _ => (300, 900, 0)) 28) = true
    ∧ ∃ j, j < 28 ∧ traceAt (fun _ => (300, 900, 0)) j = Ev.personalize := by
  have hsend : isSend (traceAt (fun _ => (300, 900, 0)) 28) = true := by decide
  exact ⟨hsend,
    (startup_once_join_before_send (fun _ => (300, 900, 0))).2.2.2.2.2 28 hsend⟩
